import Mathlib

/-
A shallow embedding of the `loopback_singleton` Python library, together with
theorems checking its specified behavior against the code.

Sources embedded here (file names refer to src/loopback_singleton/):
  - transport.py: length-prefixed framing (`_recv_exact`, `recv_message`)
  - daemon.py: CLI argument table of `main`, the runtime metadata record built
    by `run_daemon`, the watchdog predicate, the per-connection handler
    connection counting, and the message dispatch loop
  - api.py: `LocalSingletonService._spawn_daemon` argv construction,
    `_connect_or_spawn` retry structure, `proxy()` keyword call
  - proxy.py: the parameter list of `Proxy.__init__`
  - factory.py: `compute_factory_id` and its kwargs canonicalization
  - runtime.py: `read_runtime` exception handling, over a small model of the
    standard-library unpickler restricted to the opcodes the theorems touch.

Machine integers do not occur on the paths modelled here (Python ints are
unbounded); byte streams are lists of naturals < 256, wall-clock times and
floats are rationals.
-/

namespace LoopbackSingleton

/-- Python values as they occur in library payloads.  A `dict` is an
insertion-ordered association list, matching both Python dict iteration
order and the order in which `pickle` serializes the items of a dict (two dicts
that are `==` in Python but have different insertion order pickle to
different byte strings).  Dict keys are modelled as strings: every dict the
library hashes or publishes is keyword-argument-shaped.  Floats are modelled
as rationals. -/
inductive PyVal where
  | none
  | bool (b : Bool)
  | int (n : Int)
  | float (q : ℚ)
  | str (s : String)
  | tuple (xs : List PyVal)
  | list (xs : List PyVal)
  | dict (entries : List (String × PyVal))

/-! ## Framed transport (transport.py) -/

/-- Maximum frame size, from transport.py: `MAX_FRAME_BYTES = 16 * 1024 * 1024`. -/
def MAX_FRAME_BYTES : Nat := 16 * 1024 * 1024

/-- Errors `recv_message` can raise: `ConnectionError("Socket closed while
receiving")` from `_recv_exact`, or `ProtocolError` for an oversized declared
length (the declared length is carried for reference). -/
inductive RecvError where
  | connectionClosed
  | protocolError (declaredLen : Nat)
  deriving DecidableEq, Repr

/-- Model of `_recv_exact(sock, n)`.  The socket is modelled by the list of
bytes the peer will deliver before closing; the function loops `recv` until
`n` bytes are collected, so it either consumes exactly `n` bytes or, if the
stream ends first, consumes everything delivered and raises
`ConnectionError`.  Returns the outcome together with the unconsumed rest of
the stream. -/
def recvExact (n : Nat) (s : List Nat) : Except RecvError (List Nat) × List Nat :=
  if n ≤ s.length then (Except.ok (s.take n), s.drop n)
  else (Except.error RecvError.connectionClosed, [])

/-- Big-endian unpacking of the 4-byte length header, `struct.Struct("!I")`. -/
def unpackU32BE (b : List Nat) : Nat :=
  b.foldl (fun acc x => acc * 256 + x) 0

/-- Model of `recv_message(sock, serializer)` from transport.py: read exactly
4 header bytes, unpack the declared payload length, reject lengths above
`MAX_FRAME_BYTES` with `ProtocolError` (the `payload_len < 0` check of the source
is unreachable for an unsigned unpack and is omitted), then read exactly the
declared number of payload bytes.  The deserialized object is determined by
the payload bytes, so the model returns the payload bytes themselves,
together with the unconsumed rest of the stream. -/
def recv_message (s : List Nat) : Except RecvError (List Nat) × List Nat :=
  match recvExact 4 s with
  | (Except.error e, rest) => (Except.error e, rest)
  | (Except.ok rawLen, rest) =>
    let payloadLen := unpackU32BE rawLen
    if MAX_FRAME_BYTES < payloadLen then
      (Except.error (RecvError.protocolError payloadLen), rest)
    else recvExact payloadLen rest

/-! ## Daemon liveness tracking and watchdog (daemon.py) -/

/-- Shared daemon state read and written under `active_lock` in `run_daemon`:
the connection counter, the time of its last transition to zero, the
first-handshake flag, and the shutdown flag (`shutting_down` event). -/
structure WatchdogState where
  activeConnections : Nat
  lastZeroAt : ℚ
  everConnected : Bool
  shuttingDown : Bool

/-- Guard of the watchdog shutdown decision, verbatim from `watchdog` in
daemon.py: `ever_connected and active_connections == 0 and
(time.time() - last_zero_at) >= idle_ttl`. -/
def watchdogFires (s : WatchdogState) (idleTtl now : ℚ) : Bool :=
  s.everConnected && s.activeConnections == 0 && decide (idleTtl ≤ now - s.lastZeroAt)

/-- One wakeup of the watchdog loop: it only runs while the shutdown flag is
unset (`while not shutting_down.is_set()`), and sets the flag exactly when
the guard holds. -/
def watchdogStep (s : WatchdogState) (idleTtl now : ℚ) : WatchdogState :=
  if s.shuttingDown then s
  else if watchdogFires s idleTtl now then { s with shuttingDown := true }
  else s

/-! ## Connection counting in the handler (daemon.py `handle_client`) -/

/-- Counter state touched by `mark_connected`: `active_connections` and
`last_zero_at`. -/
structure ConnCounter where
  active : Int
  lastZeroAt : ℚ

/-- Verbatim model of `mark_connected(delta)`: under the lock, add the delta
and, if the counter is now zero, refresh `last_zero_at`. -/
def markConnected (s : ConnCounter) (delta : Int) (now : ℚ) : ConnCounter :=
  let a := s.active + delta
  { active := a, lastZeroAt := if a = 0 then now else s.lastZeroAt }

/-- A handler lifecycle event at a wall-clock instant.  `handle_client` calls
`mark_connected(+1)` as its first statement (entry) and `mark_connected(-1)`
in its `finally` block, which runs exactly once on every exit path:
handshake failure, stream error, SHUTDOWN, and shutdown-flag loop exit. -/
inductive ConnEvent where
  | enter (t : ℚ)
  | leave (t : ℚ)

/-- Effect of one handler event on the shared counter. -/
def applyEvent (s : ConnCounter) : ConnEvent → ConnCounter
  | ConnEvent.enter t => markConnected s 1 t
  | ConnEvent.leave t => markConnected s (-1) t

/-- Fold a sequence of handler entry/exit events over the counter. -/
def runTrace (s : ConnCounter) : List ConnEvent → ConnCounter
  | [] => s
  | e :: es => runTrace (applyEvent s e) es

/-- Number of handler entries in a trace. -/
def enterCount : List ConnEvent → Nat
  | [] => 0
  | ConnEvent.enter _ :: es => enterCount es + 1
  | ConnEvent.leave _ :: es => enterCount es

/-- Number of handler exits in a trace. -/
def leaveCount : List ConnEvent → Nat
  | [] => 0
  | ConnEvent.enter _ :: es => leaveCount es
  | ConnEvent.leave _ :: es => leaveCount es + 1

/-- Well-formed traces: the single `finally` decrement of a handler can only run
after the entry increment of that handler, so every trace the daemon can produce
has at least as many entries as exits in every finite prefix. -/
def WellFormedTrace (tr : List ConnEvent) : Prop :=
  ∀ n, n ≤ tr.length → leaveCount (tr.take n) ≤ enterCount (tr.take n)

/-! ## Daemon CLI (daemon.py `main`) versus the spawner (api.py `_spawn_daemon`) -/

/-- Option strings registered on the argparse parser in daemon.py `main`:
`--name`, `--factory`, `--idle-ttl` (all required), `--serializer` and
`--scope` (with defaults).  Note the parser knows `--factory`, not
`--factory-file`. -/
def daemonKnownFlags : List String :=
  ["--name", "--factory", "--idle-ttl", "--serializer", "--scope"]

/-- The flags that the parser in `main` marks `required=True`. -/
def daemonRequiredFlags : List String := ["--name", "--factory", "--idle-ttl"]

/-- Result of a successful parse of the argument vector by `main` in daemon.py.  The
idle TTL is kept as the raw string (`argparse` additionally converts it with
`float`, which succeeds on every string the spawner produces and is
irrelevant to the claims). -/
structure DaemonCliArgs where
  name : String
  factory : String
  idleTtl : String
  serializer : String
  scope : String

/-- Flag/value pair consumption for an argparse parser whose options all take
exactly one value: an argument vector is a sequence of `--flag value` pairs;
an unrecognized flag, or a flag with no following value, aborts parsing
(argparse exits with an error).  Values are consumed verbatim; argparse would
additionally reject a value that itself looks like an option, which can only
turn more vectors into errors. -/
def parseFlagPairs : List String → Option (List (String × String))
  | [] => some []
  | [_] => Option.none
  | f :: v :: rest =>
    if daemonKnownFlags.contains f then
      (parseFlagPairs rest).map (fun acc => (f, v) :: acc)
    else Option.none

/-- Last-wins lookup of a flag value with a default, matching argparse
(later occurrences override earlier ones; argparse stores into the same
destination). -/
def lookupFlag (pairs : List (String × String)) (f dflt : String) : String :=
  match (pairs.reverse).find? (fun p => p.1 == f) with
  | some p => p.2
  | Option.none => dflt

/-- Model of `parser.parse_args()` in `main` over an argument vector: pair
consumption, the `required=True` checks, and the documented defaults
`--serializer pickle` and `--scope user`. -/
def daemonMainParse (argv : List String) : Option DaemonCliArgs :=
  match parseFlagPairs argv with
  | Option.none => Option.none
  | some pairs =>
    if daemonRequiredFlags.all (fun r => pairs.any (fun p => p.1 == r)) then
      some { name := lookupFlag pairs "--name" ""
             factory := lookupFlag pairs "--factory" ""
             idleTtl := lookupFlag pairs "--idle-ttl" ""
             serializer := lookupFlag pairs "--serializer" "pickle"
             scope := lookupFlag pairs "--scope" "user" }
    else Option.none

/-- Argument vector built by `LocalSingletonService._spawn_daemon` (api.py),
as seen by the daemon parser: the elements after `sys.executable -m
loopback_singleton.daemon`.  The spawner passes `--factory-file` with the
factory payload path. -/
def spawnDaemonArgv (name factoryFile idleTtlStr serializer scope : String) : List String :=
  ["--name", name,
   "--factory-file", factoryFile,
   "--idle-ttl", idleTtlStr,
   "--serializer", serializer,
   "--scope", scope]

/-! ## Proxy construction (api.py `proxy` versus proxy.py `Proxy.__init__`) -/

/-- Parameter names of `Proxy.__init__` in proxy.py, `self` aside: it
declares `(self, sock, serializer_name)` and no `**kwargs`. -/
def proxyInitParams : List String := ["sock", "serializer_name"]

/-- Keyword names `LocalSingletonService.proxy()` passes when constructing
the Proxy: `Proxy(sock=sock, serializer_name=self.serializer,
service_name=self.name)`. -/
def proxyCallKeywords : List String := ["sock", "serializer_name", "service_name"]

/-- Python keyword-call binding for a function with no `**kwargs` and no
defaulted parameters: the call succeeds exactly when every keyword names a
declared parameter and every declared parameter receives a value; an
unexpected keyword raises `TypeError`. -/
def acceptsKeywordCall (params kwargs : List String) : Bool :=
  kwargs.all (fun k => params.contains k) && params.all (fun p => kwargs.contains p)

/-! ## Runtime metadata record (daemon.py `run_daemon`) -/

/-- The `runtime_info` dict built in `run_daemon` right after binding, in
source order, and atomically published to runtime.bin by `write_runtime`. -/
def runtimeInfo (protocolVersion : Nat) (host : String) (port pid : Nat)
    (serializerName : String) (startedAt : ℚ) : List (String × PyVal) :=
  [("protocol_version", PyVal.int protocolVersion),
   ("host", PyVal.str host),
   ("port", PyVal.int port),
   ("pid", PyVal.int pid),
   ("serializer", PyVal.str serializerName),
   ("started_at", PyVal.float startedAt)]

/-! ## Daemon message dispatch (daemon.py `handle_client` and `executor`) -/

/-- The singleton object held by the daemon, as the executor sees it: a
method table.  `methodAt m = none` models `getattr` raising
`AttributeError`; a present method maps call arguments to a result or to a
traceback text of a raised exception. -/
structure SingletonObj where
  methodAt : String → Option (List PyVal → List (String × PyVal) → Except String PyVal)

/-- What the executor thread does with one queued `ExecItem`: look the method
up on the object and call it, turning any exception into
`("ERR", traceback_text)` and a normal return into `("OK", result)`. -/
def executorRun (obj : SingletonObj) (methodName : String) (args : List PyVal)
    (kwargs : List (String × PyVal)) : String × PyVal :=
  match obj.methodAt methodName with
  | Option.none => ("ERR", PyVal.str ("AttributeError: " ++ methodName))
  | some f =>
    match f args kwargs with
    | Except.ok v => ("OK", v)
    | Except.error tb => ("ERR", PyVal.str tb)

/-- One message received on an authenticated connection, after the message-tuple
tag has been examined. -/
inductive ClientMsg where
  | ping
  | call (method : String) (args : List PyVal) (kwargs : List (String × PyVal))
  | shutdownCmd (force : Bool)
  | other (tag : String)

/-- Outcome of one iteration of the `handle_client` message loop: the reply
tuple `(tag, payload)` sent back, whether the handler returns (closing the
connection), whether it sets the daemon-wide shutdown flag, and which method
of the singleton, if any, the executor invoked while producing the reply. -/
structure DispatchResult where
  replyTag : String
  replyPayload : PyVal
  closesConnection : Bool
  setsShutdownFlag : Bool
  invokedMethod : Option String

/-- The dispatch performed by the `handle_client` loop body in daemon.py:
PING answers with pid and active count; CALL enqueues the item for the
executor unconditionally and relays its `(status, payload)`; SHUTDOWN sets
the flag, acknowledges and returns; any other tag gets the unknown-message
error and the loop continues.  The loop body contains no check on the
method name. -/
def dispatchMsg (obj : SingletonObj) (pid activeCount : Nat) (msg : ClientMsg) :
    DispatchResult :=
  match msg with
  | ClientMsg.ping =>
    { replyTag := "OK"
      replyPayload := PyVal.dict [("pid", PyVal.int pid), ("active", PyVal.int activeCount)]
      closesConnection := false, setsShutdownFlag := false, invokedMethod := Option.none }
  | ClientMsg.call m args kwargs =>
    let r := executorRun obj m args kwargs
    { replyTag := r.1, replyPayload := r.2
      closesConnection := false, setsShutdownFlag := false
      invokedMethod := if (obj.methodAt m).isSome then some m else Option.none }
  | ClientMsg.shutdownCmd _ =>
    { replyTag := "OK", replyPayload := PyVal.dict [("shutdown", PyVal.bool true)]
      closesConnection := true, setsShutdownFlag := true, invokedMethod := Option.none }
  | ClientMsg.other tag =>
    { replyTag := "ERR", replyPayload := PyVal.str ("unknown message type: " ++ tag)
      closesConnection := false, setsShutdownFlag := false, invokedMethod := Option.none }

/-- A singleton exposing an underscore-named method, standing in for any
object with private attributes (every `TestCounter` instance has `_value`). -/
def privateProbeObj : SingletonObj :=
  { methodAt := fun m =>
      if m = "_peek" then some (fun _ _ => Except.ok (PyVal.int 7)) else Option.none }

/-! ## Rendezvous retry structure (api.py `_connect_or_spawn`) -/

/-- Outcome of one `_connect_once()` attempt: a connected authenticated
socket, a raised `FactoryMismatchError`, or any other raised exception
(`ConnectionFailedError`, `HandshakeError`, OS errors, ...) with its text.
`FactoryMismatchError` is the class raised by
`_assert_runtime_factory_match`; its definition is absent from errors.py in
the tree (only importers reference it) — modelled from the taxonomy in the spec
as a distinct error that is not a `DaemonConnectionError`. -/
inductive ConnectOutcome where
  | success
  | factoryMismatch
  | connectError (detail : String)
  deriving DecidableEq

/-- What `_connect_or_spawn` ends in: a socket obtained on some attempt, a
propagated `FactoryMismatchError`, or a `DaemonConnectionError` wrapping the
last exception observed in the post-spawn polling loop (`none` models the
"no error details" variant). -/
inductive SpawnResult where
  | connected (attempt : Nat)
  | factoryMismatchRaised
  | daemonConnectionFailed (last : Option ConnectOutcome)
  deriving DecidableEq

/-- The post-spawn polling loop of `_connect_or_spawn`: while the deadline
has not passed (`fuel` counts the attempts the clock still allows), try
`_connect_once`; a success returns the socket, and `except Exception as exc`
records any raised exception — `FactoryMismatchError` included — as
`last_exc` and retries after a sleep.  On deadline it raises
`DaemonConnectionError` wrapping `last_exc`. -/
def pollConnect (o : Nat → ConnectOutcome) : Nat → Nat → Option ConnectOutcome → SpawnResult
  | 0, _, last => SpawnResult.daemonConnectionFailed last
  | fuel + 1, i, _ =>
    match o i with
    | ConnectOutcome.success => SpawnResult.connected i
    | e => pollConnect o fuel (i + 1) (some e)

/-- Model of `_connect_or_spawn`, with `o n` the outcome of the n-th
`_connect_once()` attempt: the pre-lock attempt (0) re-raises
`FactoryMismatchError` and swallows anything else; the post-lock
double-checked attempt (1) does the same; then the runtime is removed, the
daemon spawned, and the polling loop runs attempts 2, 3, ... with
`last_exc = None` initially. -/
def connect_or_spawn (o : Nat → ConnectOutcome) (fuel : Nat) : SpawnResult :=
  match o 0 with
  | ConnectOutcome.success => SpawnResult.connected 0
  | ConnectOutcome.factoryMismatch => SpawnResult.factoryMismatchRaised
  | ConnectOutcome.connectError _ =>
    match o 1 with
    | ConnectOutcome.success => SpawnResult.connected 1
    | ConnectOutcome.factoryMismatch => SpawnResult.factoryMismatchRaised
    | ConnectOutcome.connectError _ => pollConnect o fuel 2 Option.none

/-- Attempt oracle in which the generic pre-lock and post-lock failures are
followed by a `FactoryMismatchError` on the first polling attempt. -/
def mismatchDuringPoll : Nat → ConnectOutcome := fun i =>
  if i = 2 then ConnectOutcome.factoryMismatch else ConnectOutcome.connectError "refused"

/-! ## Factory identity (factory.py `compute_factory_id`) -/

/-- Comparison used by `sorted(factory_kwargs.items())`: Python compares the
`(key, value)` tuples, which compares keys first; dict keys are unique,
so the comparison never reaches the values and the sort is by key. -/
def keyLE (a b : String × PyVal) : Prop := a.1 ≤ b.1

/-- Strict variant of `keyLE` used to identify sorted nodup-key lists. -/
def keyLT (a b : String × PyVal) : Prop := a.1 < b.1

instance : DecidableRel keyLE := fun a b => inferInstanceAs (Decidable (a.1 ≤ b.1))

instance : IsTotal (String × PyVal) keyLE := ⟨fun a b => le_total a.1 b.1⟩

instance : IsTrans (String × PyVal) keyLE := ⟨fun _ _ _ h₁ h₂ => le_trans h₁ h₂⟩

instance : IsAntisymm (String × PyVal) keyLT := ⟨fun _ _ h₁ h₂ => (lt_asymm h₁ h₂).elim⟩

/-- Model of `sorted(...)` over the items of a dict (stable, by key — see
`keyLE`). -/
def sortEntriesByKey (es : List (String × PyVal)) : List (String × PyVal) :=
  List.insertionSort keyLE es

/-- Packaging of the sorted items into the tuple-of-pairs shape
`_canonicalize_kwargs` returns: `tuple((key, value) for ...)`. -/
def entryTuples (es : List (String × PyVal)) : List PyVal :=
  es.map (fun kv => PyVal.tuple [PyVal.str kv.1, kv.2])

mutual

/-- Model of `_canonicalize_value`: a dict becomes its canonicalized-kwargs
tuple, lists and tuples are canonicalized elementwise in order, everything
else is returned unchanged.  The source sorts the items of a dict before
canonicalizing the values; dict keys are unique, so the item sort
compares keys only and sorting commutes with canonicalizing values — the
two steps are swapped here for structural recursion. -/
def canonValue : PyVal → PyVal
  | PyVal.dict es => PyVal.tuple (entryTuples (sortEntriesByKey (canonEntries es)))
  | PyVal.list xs => PyVal.list (canonList xs)
  | PyVal.tuple xs => PyVal.tuple (canonList xs)
  | v => v

/-- Elementwise canonicalization of the items of a sequence, order preserved. -/
def canonList : List PyVal → List PyVal
  | [] => []
  | x :: xs => canonValue x :: canonList xs

/-- Canonicalization of the values of a dict, keys and order untouched. -/
def canonEntries : List (String × PyVal) → List (String × PyVal)
  | [] => []
  | (k, v) :: es => (k, canonValue v) :: canonEntries es

end

/-- Model of `_canonicalize_kwargs`: the items sorted by key, values
recursively canonicalized, as a tuple of `(key, value)` tuples. -/
def canonicalize_kwargs (factoryKwargs : List (String × PyVal)) : PyVal :=
  PyVal.tuple (entryTuples (sortEntriesByKey (canonEntries factoryKwargs)))

/-- Model of `compute_factory_id`: the payload
`(factory_import, factory_args, _canonicalize_kwargs(factory_kwargs))` that
the source pickles and hashes.  Note `factory_args` enters raw — only the
kwargs are canonicalized.  The source renders the identity as the 8-byte
blake2b hex digest of the pickled payload; pickling preserves the structure
and ordering modelled by `PyVal` and the digest is a fixed deterministic
function of the pickled bytes, so the identity is modelled by the payload
itself: equal payloads give equal digests, and distinct payloads give
distinct digests up to blake2b collisions. -/
def compute_factory_id (factoryImport : String) (factoryArgs : List PyVal)
    (factoryKwargs : List (String × PyVal)) : PyVal :=
  PyVal.tuple [PyVal.str factoryImport, PyVal.tuple factoryArgs,
    canonicalize_kwargs factoryKwargs]

mutual

/-- Two Python values differ only by the key order of nested mappings:
identical atoms, sequences related elementwise, and dicts whose entry lists
are permutations of each other after relating the values — with the
well-formedness condition that dict keys are unique, which every real
Python dict satisfies. -/
inductive KeyPermEq : PyVal → PyVal → Prop where
  | base {v : PyVal} : KeyPermEq v v
  | tuple {xs ys : List PyVal} : KeyPermEqList xs ys → KeyPermEq (PyVal.tuple xs) (PyVal.tuple ys)
  | list {xs ys : List PyVal} : KeyPermEqList xs ys → KeyPermEq (PyVal.list xs) (PyVal.list ys)
  | dict {es₁ es es₂ : List (String × PyVal)} :
      (es₁.map Prod.fst).Nodup → KeyPermEqEntries es₁ es → es.Perm es₂ →
      KeyPermEq (PyVal.dict es₁) (PyVal.dict es₂)

/-- Elementwise `KeyPermEq` on sequences (order preserved). -/
inductive KeyPermEqList : List PyVal → List PyVal → Prop where
  | nil : KeyPermEqList [] []
  | cons {x y : PyVal} {xs ys : List PyVal} :
      KeyPermEq x y → KeyPermEqList xs ys → KeyPermEqList (x :: xs) (y :: ys)

/-- Pointwise `KeyPermEq` on dict entries: same keys in the same positions,
values related. -/
inductive KeyPermEqEntries : List (String × PyVal) → List (String × PyVal) → Prop where
  | nil : KeyPermEqEntries [] []
  | cons {k : String} {v₁ v₂ : PyVal} {es₁ es₂ : List (String × PyVal)} :
      KeyPermEq v₁ v₂ → KeyPermEqEntries es₁ es₂ →
      KeyPermEqEntries ((k, v₁) :: es₁) ((k, v₂) :: es₂)

end

/-! ## runtime.bin reading (runtime.py `read_runtime`)

`read_runtime` opens runtime.bin and calls the standard-library function
`pickle.load`, catching `(PermissionError, pickle.UnpicklingError, EOFError,
OSError)`.  To examine which decode failures that covers, a fragment of the
CPython unpickler is modelled: enough opcodes to produce an empty result
(`N`, `}`, `]`, STOP `.`) plus the protocol-0 GLOBAL opcode `c`, whose
`find_class` imports a module and can raise `ModuleNotFoundError` or
`AttributeError` — exceptions outside the caught tuple.  Inputs outside this
opcode fragment are not modelled; every theorem below evaluates the model
only on inputs inside the fragment, where it matches CPython: empty input
raises `EOFError`, an unassigned opcode byte or a stack underflow at STOP or
a truncated GLOBAL line raises `UnpicklingError`, and GLOBAL resolution
failures raise the import-machinery errors. -/

/-- Exception classes relevant to `read_runtime`.  In CPython,
`PermissionError` is a subclass of `OSError`; `ModuleNotFoundError` (an
`ImportError`) and `AttributeError` are subclasses of neither `OSError` nor
`pickle.UnpicklingError` nor `EOFError`. -/
inductive PyExc where
  | eofError
  | unpicklingError
  | moduleNotFoundError
  | attributeError
  | permissionError
  | osError
  deriving DecidableEq

/-- The importable modules and their attributes, as `find_class` sees them. -/
structure ModuleEnv where
  modules : List (String × List String)

/-- Module import as performed by `find_class` in the unpickler. -/
def lookupModule (env : ModuleEnv) (m : String) : Option (List String) :=
  match env.modules.find? (fun p => p.1 == m) with
  | some p => some p.2
  | Option.none => Option.none

/-- Split a readline-style line off a byte stream: the characters up to the
first newline, and the rest after it; `none` when no newline follows. -/
def splitAtNewline : List Char → Option (List Char × List Char)
  | [] => Option.none
  | c :: rest =>
    if c = '\n' then some ([], rest)
    else
      match splitAtNewline rest with
      | some (line, tail) => some (c :: line, tail)
      | Option.none => Option.none

/-- The unpickler dispatch loop over the modelled opcode fragment.  `fuel`
only bounds recursion depth for the termination checker; every step consumes
at least one input character, so with fuel exceeding the input length the
zero-fuel branch is unreachable (and agrees with the exhausted-input
behavior anyway). -/
def loadLoop (env : ModuleEnv) : Nat → List Char → List PyVal → Except PyExc PyVal
  | 0, _, _ => Except.error PyExc.eofError
  | fuel + 1, cs, stack =>
    match cs with
    | [] => Except.error PyExc.eofError
    | c :: rest =>
      if c = '.' then
        match stack with
        | [] => Except.error PyExc.unpicklingError
        | v :: _ => Except.ok v
      else if c = 'N' then loadLoop env fuel rest (PyVal.none :: stack)
      else if c = '}' then loadLoop env fuel rest (PyVal.dict [] :: stack)
      else if c = ']' then loadLoop env fuel rest (PyVal.list [] :: stack)
      else if c = 'c' then
        match splitAtNewline rest with
        | Option.none => Except.error PyExc.unpicklingError
        | some (moduleLine, r1) =>
          match splitAtNewline r1 with
          | Option.none => Except.error PyExc.unpicklingError
          | some (attrLine, r2) =>
            match lookupModule env (String.mk moduleLine) with
            | Option.none => Except.error PyExc.moduleNotFoundError
            | some attrs =>
              if attrs.contains (String.mk attrLine) then
                loadLoop env fuel r2
                  (PyVal.str (String.mk moduleLine ++ ":" ++ String.mk attrLine) :: stack)
              else Except.error PyExc.attributeError
      else Except.error PyExc.unpicklingError

/-- Model of `pickle.load` on the whole file contents. -/
def pickle_loads (env : ModuleEnv) (cs : List Char) : Except PyExc PyVal :=
  loadLoop env (cs.length + 1) cs []

/-- The observable state of runtime.bin when `read_runtime` runs. -/
inductive RuntimeFileState where
  | absent
  | permissionDenied
  | contents (cs : List Char)

/-- The exception tuple of the second `except` clause in `read_runtime`:
`(PermissionError, pickle.UnpicklingError, EOFError, OSError)`. -/
def caughtByReadRuntime : PyExc → Bool
  | PyExc.permissionError => true
  | PyExc.unpicklingError => true
  | PyExc.eofError => true
  | PyExc.osError => true
  | _ => false

/-- Model of `read_runtime`: a missing file (the `exists()` check) and a
`PermissionError` from the check both give the not-present sentinel; the
file contents are then unpickled, with exceptions in the caught tuple
mapped to the sentinel and any other exception propagating to the caller. -/
def read_runtime (env : ModuleEnv) (fs : RuntimeFileState) : Except PyExc (Option PyVal) :=
  match fs with
  | RuntimeFileState.absent => Except.ok Option.none
  | RuntimeFileState.permissionDenied => Except.ok Option.none
  | RuntimeFileState.contents cs =>
    match pickle_loads env cs with
    | Except.ok v => Except.ok (some v)
    | Except.error e =>
      if caughtByReadRuntime e then Except.ok Option.none else Except.error e

/-- Environment with no importable modules (any module reference in the
pickled data is dangling). -/
def emptyEnv : ModuleEnv := ⟨[]⟩

/-! ## Theorems -/

theorem recvExact_of_le {n : Nat} {s : List Nat} (h : n ≤ s.length) :
    recvExact n s = (Except.ok (s.take n), s.drop n) := by
  simp [recvExact, h]

theorem recvExact_cons4 (b0 b1 b2 b3 : Nat) (tail : List Nat) :
    recvExact 4 (b0 :: b1 :: b2 :: b3 :: tail) = (Except.ok [b0, b1, b2, b3], tail) := by
  have h : 4 ≤ (b0 :: b1 :: b2 :: b3 :: tail).length := by
    simp [List.length]
  rw [recvExact_of_le h]
  simp

/-- C8: for a stream whose 4-byte big-endian header declares a payload length
above the 16 MiB maximum, `recv_message` raises `ProtocolError` having
consumed only the 4 header bytes and none of the payload; for an in-bounds
declared length it consumes exactly that many payload bytes and returns them;
and if the stream ends before the declared payload is complete it raises the
connection-closed error. -/
theorem recv_message_consumption (b0 b1 b2 b3 : Nat) (tail : List Nat) :
    (MAX_FRAME_BYTES < unpackU32BE [b0, b1, b2, b3] →
      recv_message (b0 :: b1 :: b2 :: b3 :: tail) =
        (Except.error (RecvError.protocolError (unpackU32BE [b0, b1, b2, b3])), tail)) ∧
    (unpackU32BE [b0, b1, b2, b3] ≤ MAX_FRAME_BYTES →
      unpackU32BE [b0, b1, b2, b3] ≤ tail.length →
      recv_message (b0 :: b1 :: b2 :: b3 :: tail) =
        (Except.ok (tail.take (unpackU32BE [b0, b1, b2, b3])),
          tail.drop (unpackU32BE [b0, b1, b2, b3]))) ∧
    (unpackU32BE [b0, b1, b2, b3] ≤ MAX_FRAME_BYTES →
      tail.length < unpackU32BE [b0, b1, b2, b3] →
      (recv_message (b0 :: b1 :: b2 :: b3 :: tail)).1 =
        Except.error RecvError.connectionClosed) := by
  refine ⟨?_, ?_, ?_⟩
  · intro hbig
    simp [recv_message, recvExact_cons4, hbig]
  · intro hok hlen
    have hnotbig : ¬ MAX_FRAME_BYTES < unpackU32BE [b0, b1, b2, b3] := by omega
    simp [recv_message, recvExact_cons4, hnotbig, recvExact_of_le hlen]
  · intro hok hshort
    have hnotbig : ¬ MAX_FRAME_BYTES < unpackU32BE [b0, b1, b2, b3] := by omega
    have hgt : ¬ unpackU32BE [b0, b1, b2, b3] ≤ tail.length := by omega
    simp [recv_message, recvExact_cons4, hnotbig, recvExact, hgt]

/-- Witness for C8: concrete streams exercising all three branches.  Header
bytes 01 00 00 01 declare 16777217 = 16 MiB + 1, which is rejected with the
header consumed and the single pending payload byte untouched; header
00 00 00 02 with three buffered bytes consumes exactly two; header
00 00 00 02 with one buffered byte is a premature EOF. -/
theorem recv_message_consumption_witness :
    recv_message [1, 0, 0, 1, 9] = (Except.error (RecvError.protocolError 16777217), [9]) ∧
    recv_message [0, 0, 0, 2, 7, 8, 9] = (Except.ok [7, 8], [9]) ∧
    (recv_message [0, 0, 0, 2, 7]).1 = Except.error RecvError.connectionClosed := by
  refine ⟨?_, ?_, ?_⟩
  · exact (recv_message_consumption 1 0 0 1 [9]).1 (by decide)
  · exact (recv_message_consumption 0 0 0 2 [7, 8, 9]).2.1 (by decide) (by decide)
  · exact (recv_message_consumption 0 0 0 2 [7]).2.2 (by decide) (by decide)

/-- C9: a watchdog wakeup leaves the shutdown flag set exactly when it was
already set or the full idle guard held (first handshake seen, zero active
connections, and at least `idle_ttl` elapsed since the counter last reached
zero); in particular a daemon that has never completed a handshake is never
shut down by the idle path. -/
theorem watchdog_idle_guard (s : WatchdogState) (idleTtl now : ℚ) :
    ((watchdogStep s idleTtl now).shuttingDown = true ↔
      (s.shuttingDown = true ∨
        (s.everConnected = true ∧ s.activeConnections = 0 ∧ idleTtl ≤ now - s.lastZeroAt))) ∧
    (s.everConnected = false → (watchdogStep s idleTtl now).shuttingDown = s.shuttingDown) := by
  obtain ⟨ac, lz, ec, sd⟩ := s
  refine ⟨?_, ?_⟩
  · cases ec <;> cases sd <;>
      by_cases hac : ac = 0 <;> by_cases ht : idleTtl ≤ now - lz <;>
        simp_all [watchdogStep, watchdogFires] <;>
        simp [not_le.mpr ht]
  · intro hnever
    have hec : ec = false := hnever
    subst hec
    cases sd <;> simp_all [watchdogStep, watchdogFires]

/-- Witness for C9: a freshly spawned daemon state (no handshake yet, flag
unset) survives a wakeup far past its TTL. -/
theorem watchdog_idle_guard_witness :
    (watchdogStep ⟨0, 0, false, false⟩ 1 100).shuttingDown =
      WatchdogState.shuttingDown ⟨0, 0, false, false⟩ :=
  (watchdog_idle_guard ⟨0, 0, false, false⟩ 1 100).2 rfl

theorem runTrace_active (tr : List ConnEvent) :
    ∀ s : ConnCounter,
      (runTrace s tr).active = s.active + enterCount tr - leaveCount tr := by
  induction tr with
  | nil => intro s; simp [runTrace, enterCount, leaveCount]
  | cons e es ih =>
    intro s
    cases e with
    | enter t =>
      simp only [runTrace, applyEvent, enterCount, leaveCount, ih, markConnected]
      push_cast
      ring
    | leave t =>
      simp only [runTrace, applyEvent, enterCount, leaveCount, ih, markConnected]
      push_cast
      ring

/-- C10: starting from a zero counter, after any well-formed prefix of
handler events the counter equals the number of live handlers (entries minus
exits) and is never negative; and `mark_connected` refreshes `last_zero_at`
precisely when the updated counter is zero. -/
theorem handler_counter_invariant (tr : List ConnEvent) (s0 : ConnCounter)
    (h0 : s0.active = 0) (hwf : WellFormedTrace tr) :
    (∀ n, (runTrace s0 (tr.take n)).active =
      (enterCount (tr.take n) : Int) - leaveCount (tr.take n)) ∧
    (∀ n, 0 ≤ (runTrace s0 (tr.take n)).active) ∧
    (∀ (s : ConnCounter) (d : Int) (t : ℚ),
      (markConnected s d t).lastZeroAt = if s.active + d = 0 then t else s.lastZeroAt) := by
  have hact : ∀ n, (runTrace s0 (tr.take n)).active =
      (enterCount (tr.take n) : Int) - leaveCount (tr.take n) := by
    intro n
    rw [runTrace_active, h0]
    ring
  refine ⟨hact, ?_, ?_⟩
  · intro n
    rw [hact n]
    by_cases hn : n ≤ tr.length
    · have := hwf n hn
      omega
    · have htk : tr.take n = tr := List.take_of_length_le (by omega)
      have := hwf tr.length (le_refl _)
      rw [List.take_length] at this
      rw [htk]
      omega
  · intro s d t
    simp [markConnected]

/-- Witness for C10: the trace of two overlapping handlers; after the third
event one handler is still live and the counter is 1, never having gone
negative. -/
theorem handler_counter_invariant_witness :
    (runTrace ⟨0, 0⟩ (([ConnEvent.enter 1, ConnEvent.enter 2, ConnEvent.leave 3,
        ConnEvent.leave 4]).take 3)).active =
      (enterCount (([ConnEvent.enter 1, ConnEvent.enter 2, ConnEvent.leave 3,
        ConnEvent.leave 4]).take 3) : Int) -
      leaveCount (([ConnEvent.enter 1, ConnEvent.enter 2, ConnEvent.leave 3,
        ConnEvent.leave 4]).take 3) :=
  (handler_counter_invariant
    [ConnEvent.enter 1, ConnEvent.enter 2, ConnEvent.leave 3, ConnEvent.leave 4]
    ⟨0, 0⟩ rfl
    (by unfold WellFormedTrace; decide)).1 3

/-- C1 (failing evaluation): every argument vector `_spawn_daemon` builds is
rejected by the parser in `main` — the spawner passes `--factory-file`, which the
parser does not know (it registers `--factory` instead), so the daemon never
gets to load a factory payload from the given path. -/
theorem spawn_argv_rejected_by_daemon_main
    (name factoryFile idleTtlStr serializer scope : String) :
    daemonMainParse (spawnDaemonArgv name factoryFile idleTtlStr serializer scope) =
      Option.none := by
  have h1 : "--name" ∈ daemonKnownFlags := by decide
  have h2 : "--factory-file" ∉ daemonKnownFlags := by decide
  simp [daemonMainParse, spawnDaemonArgv, parseFlagPairs, h1, h2]

/-- C2 (failing evaluation): the keyword call `proxy()` makes is not accepted
by `Proxy.__init__` — `service_name` is not among its parameters — so a
successful rendezvous ends in a `TypeError` instead of a `Proxy` wrapping the
socket. -/
theorem proxy_keyword_call_rejected :
    acceptsKeywordCall proxyInitParams proxyCallKeywords = false ∧
    proxyInitParams.contains "service_name" = false := by
  decide

/-- C3 (failing evaluation): the keys of the published record are exactly
`protocol_version, host, port, pid, serializer, started_at` — it carries no
`factory_id` (nor a `codec_name` key; the codec name travels under
`serializer`), so a client has no daemon-side identity to compare against. -/
theorem runtime_record_has_no_factory_id (protocolVersion : Nat) (host : String)
    (port pid : Nat) (serializerName : String) (startedAt : ℚ) :
    (runtimeInfo protocolVersion host port pid serializerName startedAt).map Prod.fst =
      ["protocol_version", "host", "port", "pid", "serializer", "started_at"] ∧
    ¬ "factory_id" ∈
      (runtimeInfo protocolVersion host port pid serializerName startedAt).map Prod.fst ∧
    ¬ "codec_name" ∈
      (runtimeInfo protocolVersion host port pid serializerName startedAt).map Prod.fst := by
  have h : (runtimeInfo protocolVersion host port pid serializerName startedAt).map Prod.fst =
      ["protocol_version", "host", "port", "pid", "serializer", "started_at"] := rfl
  refine ⟨h, ?_, ?_⟩ <;> rw [h] <;> decide

/-- C4 (failing evaluation): a CALL whose method name begins with an
underscore is not rejected — the daemon forwards it to the executor, the
private method is invoked, and its result is returned; the reply is never
`("ERR", "private methods are not allowed")`. -/
theorem call_private_method_not_rejected :
    (dispatchMsg privateProbeObj 4242 1 (ClientMsg.call "_peek" [] [])).replyTag = "OK" ∧
    (dispatchMsg privateProbeObj 4242 1 (ClientMsg.call "_peek" [] [])).replyPayload =
      PyVal.int 7 ∧
    (dispatchMsg privateProbeObj 4242 1 (ClientMsg.call "_peek" [] [])).invokedMethod =
      some "_peek" ∧
    (dispatchMsg privateProbeObj 4242 1 (ClientMsg.call "_peek" [] [])).replyPayload ≠
      PyVal.str "private methods are not allowed" ∧
    "_peek".data.head? = some '_' := by
  refine ⟨?_, ?_, ?_, ?_, ?_⟩
  · simp [dispatchMsg, executorRun, privateProbeObj]
  · simp [dispatchMsg, executorRun, privateProbeObj]
  · simp [dispatchMsg, privateProbeObj]
  · simp [dispatchMsg, executorRun, privateProbeObj]
  · decide

/-- Counterexample to C5: when an attempt inside the polling loop raises
`FactoryMismatchError`, `_connect_or_spawn` does not propagate it — the
`except Exception` arm catches it and, at the deadline, wraps it in
`DaemonConnectionError`. -/
theorem connect_or_spawn_poll_swallows_mismatch :
    connect_or_spawn mismatchDuringPoll 1 =
      SpawnResult.daemonConnectionFailed (some ConnectOutcome.factoryMismatch) ∧
    connect_or_spawn mismatchDuringPoll 1 ≠ SpawnResult.factoryMismatchRaised := by
  decide

/-- C5 as amended: `FactoryMismatchError` propagates immediately out of the
pre-lock attempt and out of the post-lock double-checked attempt, but an
attempt inside the post-spawn polling loop that raises it is caught like any
other exception and retried; whatever happens there, the polling loop never
terminates by re-raising `FactoryMismatchError` (on deadline it wraps the
last error in `DaemonConnectionError`). -/
theorem connect_or_spawn_mismatch_propagation (o : Nat → ConnectOutcome) (fuel : Nat) :
    (o 0 = ConnectOutcome.factoryMismatch →
      connect_or_spawn o fuel = SpawnResult.factoryMismatchRaised) ∧
    (∀ d, o 0 = ConnectOutcome.connectError d → o 1 = ConnectOutcome.factoryMismatch →
      connect_or_spawn o fuel = SpawnResult.factoryMismatchRaised) ∧
    (∀ f i last, pollConnect o f i last ≠ SpawnResult.factoryMismatchRaised) := by
  refine ⟨?_, ?_, ?_⟩
  · intro h0
    simp [connect_or_spawn, h0]
  · intro d h0 h1
    simp [connect_or_spawn, h0, h1]
  · intro f
    induction f with
    | zero => intro i last; simp [pollConnect]
    | succ f ih =>
      intro i last
      cases h : o i with
      | success => simp [pollConnect, h]
      | factoryMismatch => simpa [pollConnect, h] using ih (i + 1) (some ConnectOutcome.factoryMismatch)
      | connectError d => simpa [pollConnect, h] using ih (i + 1) (some (ConnectOutcome.connectError d))

/-- Witness for the amended C5 theorem: a pre-lock mismatch propagates, and a
polling loop starting amid mismatches never re-raises one. -/
theorem connect_or_spawn_mismatch_propagation_witness :
    connect_or_spawn (fun _ => ConnectOutcome.factoryMismatch) 3 =
      SpawnResult.factoryMismatchRaised ∧
    pollConnect (fun _ => ConnectOutcome.factoryMismatch) 2 2 Option.none ≠
      SpawnResult.factoryMismatchRaised := by
  constructor
  · exact (connect_or_spawn_mismatch_propagation (fun _ => ConnectOutcome.factoryMismatch) 3).1 rfl
  · exact (connect_or_spawn_mismatch_propagation (fun _ => ConnectOutcome.factoryMismatch) 3).2.2 2 2 Option.none

theorem canonEntries_eq_map (es : List (String × PyVal)) :
    canonEntries es = es.map (fun kv => (kv.1, canonValue kv.2)) := by
  induction es with
  | nil => rfl
  | cons kv es ih => cases kv; simp [canonEntries, ih]

theorem canonEntries_keys (es : List (String × PyVal)) :
    (canonEntries es).map Prod.fst = es.map Prod.fst := by
  rw [canonEntries_eq_map, List.map_map]
  rfl

/-- Sorting by key is permutation-invariant on lists with unique keys: both
sorts are sorted by key, hence strictly sorted by key by uniqueness, and are
permutations of each other. -/
theorem sortEntriesByKey_eq_of_perm {l₁ l₂ : List (String × PyVal)} (hp : l₁.Perm l₂)
    (hnd : (l₁.map Prod.fst).Nodup) : sortEntriesByKey l₁ = sortEntriesByKey l₂ := by
  have hps : (sortEntriesByKey l₁).Perm (sortEntriesByKey l₂) :=
    (List.perm_insertionSort keyLE l₁).trans (hp.trans (List.perm_insertionSort keyLE l₂).symm)
  have hnd₂ : (l₂.map Prod.fst).Nodup := ((hp.map Prod.fst).nodup_iff).mp hnd
  have hpw₁ : List.Pairwise (fun a b : String × PyVal => a.1 ≠ b.1) (sortEntriesByKey l₁) := by
    have h := ((List.perm_insertionSort keyLE l₁).map Prod.fst).nodup_iff.mpr hnd
    exact (List.pairwise_map).mp h
  have hpw₂ : List.Pairwise (fun a b : String × PyVal => a.1 ≠ b.1) (sortEntriesByKey l₂) := by
    have h := ((List.perm_insertionSort keyLE l₂).map Prod.fst).nodup_iff.mpr hnd₂
    exact (List.pairwise_map).mp h
  have hlt₁ : List.Sorted keyLT (sortEntriesByKey l₁) := by
    have hle : List.Sorted keyLE (sortEntriesByKey l₁) := List.sorted_insertionSort keyLE l₁
    exact (hle.and hpw₁).imp (fun h => lt_of_le_of_ne h.1 h.2)
  have hlt₂ : List.Sorted keyLT (sortEntriesByKey l₂) := by
    have hle : List.Sorted keyLE (sortEntriesByKey l₂) := List.sorted_insertionSort keyLE l₂
    exact (hle.and hpw₂).imp (fun h => lt_of_le_of_ne h.1 h.2)
  exact List.eq_of_perm_of_sorted hps hlt₁ hlt₂

mutual

/-- Canonicalization is invariant under key reorderings of nested mappings. -/
theorem canonValue_resp : ∀ {a b : PyVal}, KeyPermEq a b → canonValue a = canonValue b
  | _, _, KeyPermEq.base => rfl
  | _, _, KeyPermEq.tuple hl => by
      simp only [canonValue]
      exact congrArg PyVal.tuple (canonList_resp hl)
  | _, _, KeyPermEq.list hl => by
      simp only [canonValue]
      exact congrArg PyVal.list (canonList_resp hl)
  | _, _, @KeyPermEq.dict es₁ es es₂ hnd hpt hperm => by
      simp only [canonValue]
      have h₁ : canonEntries es₁ = canonEntries es := canonEntries_resp hpt
      have h₂ : (canonEntries es).Perm (canonEntries es₂) := by
        rw [canonEntries_eq_map, canonEntries_eq_map]
        exact hperm.map _
      have hndc : ((canonEntries es₁).map Prod.fst).Nodup := by
        rw [canonEntries_keys]; exact hnd
      have hsort : sortEntriesByKey (canonEntries es₁) = sortEntriesByKey (canonEntries es₂) :=
        sortEntriesByKey_eq_of_perm (h₁ ▸ h₂) hndc
      rw [hsort]

theorem canonList_resp : ∀ {xs ys : List PyVal},
    KeyPermEqList xs ys → canonList xs = canonList ys
  | _, _, KeyPermEqList.nil => rfl
  | _, _, KeyPermEqList.cons h hl => by
      simp only [canonList]
      rw [canonValue_resp h, canonList_resp hl]

theorem canonEntries_resp : ∀ {es₁ es₂ : List (String × PyVal)},
    KeyPermEqEntries es₁ es₂ → canonEntries es₁ = canonEntries es₂
  | _, _, KeyPermEqEntries.nil => rfl
  | _, _, @KeyPermEqEntries.cons k v₁ v₂ es₁ es₂ h hl => by
      simp only [canonEntries]
      rw [canonValue_resp h, canonEntries_resp hl]

end

/-- C6 as amended: the factory identity is invariant under key reorderings
of the kwargs mapping — at the top level and nested anywhere inside kwargs
values — with the import string and the args unchanged.  (It is not
invariant under key reorderings inside `factory_args`, which the source
hashes without canonicalization.) -/
theorem compute_factory_id_kwargs_key_order_invariant (factoryImport : String)
    (factoryArgs : List PyVal) (kw₁ kw₂ : List (String × PyVal))
    (h : KeyPermEq (PyVal.dict kw₁) (PyVal.dict kw₂)) :
    compute_factory_id factoryImport factoryArgs kw₁ =
      compute_factory_id factoryImport factoryArgs kw₂ := by
  have hc : canonValue (PyVal.dict kw₁) = canonValue (PyVal.dict kw₂) := canonValue_resp h
  simp only [canonValue] at hc
  simp only [compute_factory_id, canonicalize_kwargs]
  rw [hc]

/-- Counterexample to C6 as stated: two factory descriptions that differ
only by the key order of a mapping sitting inside `factory_args` produce
different identity payloads — `compute_factory_id` canonicalizes only the
kwargs, and pickled dicts retain insertion order. -/
theorem compute_factory_id_args_key_order_counterexample :
    compute_factory_id "fixtures_pkg.services:make_counter"
        [PyVal.dict [("a", PyVal.int 1), ("b", PyVal.int 2)]] [] ≠
      compute_factory_id "fixtures_pkg.services:make_counter"
        [PyVal.dict [("b", PyVal.int 2), ("a", PyVal.int 1)]] [] := by
  intro h
  simp only [compute_factory_id, PyVal.tuple.injEq, List.cons.injEq, PyVal.dict.injEq,
    Prod.mk.injEq, PyVal.int.injEq, and_true, true_and] at h
  simp at h

/-- Witness for the amended C6 theorem: reordering the keys of the top-level
kwargs mapping and of a mapping nested inside one of its values leaves the
identity unchanged (mirrors the nested-kwargs unit test). -/
theorem compute_factory_id_kwargs_key_order_invariant_witness :
    compute_factory_id "fixtures_pkg.services:make_counter" []
        [("cfg", PyVal.dict [("x", PyVal.int 1), ("y", PyVal.int 2)]), ("z", PyVal.int 9)] =
      compute_factory_id "fixtures_pkg.services:make_counter" []
        [("z", PyVal.int 9), ("cfg", PyVal.dict [("y", PyVal.int 2), ("x", PyVal.int 1)])] := by
  apply compute_factory_id_kwargs_key_order_invariant
  exact KeyPermEq.dict (by decide)
    (KeyPermEqEntries.cons
      (KeyPermEq.dict (by decide)
        (KeyPermEqEntries.cons KeyPermEq.base
          (KeyPermEqEntries.cons KeyPermEq.base KeyPermEqEntries.nil))
        (List.Perm.swap _ _ _))
      (KeyPermEqEntries.cons KeyPermEq.base KeyPermEqEntries.nil))
    (List.Perm.swap _ _ _)

theorem splitAtNewline_append (l r : List Char) (hl : ¬ '\n' ∈ l) :
    splitAtNewline (l ++ '\n' :: r) = some (l, r) := by
  induction l with
  | nil => simp [splitAtNewline]
  | cons c l ih =>
    have hc : ¬ c = '\n' := fun h => hl (h ▸ List.mem_cons_self c l)
    have hl2 : ¬ '\n' ∈ l := fun h => hl (List.mem_cons_of_mem _ h)
    simp [splitAtNewline, hc, ih hl2]

/-- Counterexample to C7: runtime.bin containing the (invalid) pickle data
`b"cnosuchmod\nX\n."` — a protocol-0 GLOBAL naming a module that does not
exist — makes `read_runtime` propagate `ModuleNotFoundError` to the caller
instead of returning the not-present sentinel: the caught tuple
`(PermissionError, UnpicklingError, EOFError, OSError)` does not cover
import-machinery errors raised while decoding. -/
theorem read_runtime_propagates_import_error :
    read_runtime emptyEnv (RuntimeFileState.contents ("cnosuchmod\nX\n.".data)) =
      Except.error PyExc.moduleNotFoundError ∧
    read_runtime emptyEnv (RuntimeFileState.contents ("cnosuchmod\nX\n.".data)) ≠
      Except.ok Option.none := by
  have h1 : read_runtime emptyEnv (RuntimeFileState.contents ("cnosuchmod\nX\n.".data)) =
      Except.error PyExc.moduleNotFoundError := rfl
  exact ⟨h1, fun h => by rw [h1] at h; exact Except.noConfusion h⟩

/-- C7 as amended: `read_runtime` maps absence, permission errors, and any
decode failure in the caught tuple (`PermissionError`, `UnpicklingError`,
`EOFError`, `OSError` — covering truncation, stack underflow and invalid
opcodes) to the not-present sentinel, but an unpickling exception outside
that tuple propagates; in particular any contents carrying a GLOBAL opcode
that names an unimportable module raises through to the caller. -/
theorem read_runtime_error_classification (env : ModuleEnv) :
    (read_runtime env RuntimeFileState.absent = Except.ok Option.none) ∧
    (read_runtime env RuntimeFileState.permissionDenied = Except.ok Option.none) ∧
    (∀ cs e, pickle_loads env cs = Except.error e → caughtByReadRuntime e = true →
      read_runtime env (RuntimeFileState.contents cs) = Except.ok Option.none) ∧
    (∀ cs e, pickle_loads env cs = Except.error e → caughtByReadRuntime e = false →
      read_runtime env (RuntimeFileState.contents cs) = Except.error e) ∧
    (∀ moduleLine attrLine rest, ¬ '\n' ∈ moduleLine → ¬ '\n' ∈ attrLine →
      lookupModule env (String.mk moduleLine) = Option.none →
      read_runtime env (RuntimeFileState.contents
          ('c' :: (moduleLine ++ '\n' :: (attrLine ++ '\n' :: rest)))) =
        Except.error PyExc.moduleNotFoundError) := by
  refine ⟨rfl, rfl, ?_, ?_, ?_⟩
  · intro cs e he hc
    simp [read_runtime, he, hc]
  · intro cs e he hc
    simp [read_runtime, he, hc]
  · intro moduleLine attrLine rest hm ha hlk
    have hload : pickle_loads env
        ('c' :: (moduleLine ++ '\n' :: (attrLine ++ '\n' :: rest))) =
        Except.error PyExc.moduleNotFoundError := by
      simp [pickle_loads, loadLoop, splitAtNewline_append _ _ hm,
        splitAtNewline_append _ _ ha, hlk]
    simp [read_runtime, hload, caughtByReadRuntime]

/-- Witness for the amended C7 theorem: an unassigned opcode byte is caught
and reads as not-present, while a GLOBAL naming a missing module propagates. -/
theorem read_runtime_error_classification_witness :
    read_runtime emptyEnv (RuntimeFileState.contents ['x']) = Except.ok Option.none ∧
    read_runtime emptyEnv (RuntimeFileState.contents
        ('c' :: ("nosuchmod".data ++ '\n' :: ("X".data ++ '\n' :: [])))) =
      Except.error PyExc.moduleNotFoundError := by
  constructor
  · exact (read_runtime_error_classification emptyEnv).2.2.1 ['x'] PyExc.unpicklingError
      rfl (by decide)
  · exact (read_runtime_error_classification emptyEnv).2.2.2.2 "nosuchmod".data "X".data []
      (by decide) (by decide) (by decide)

end LoopbackSingleton
